import Mathlib

/-!
Verification of the GroundStation HTTP gateway (src/server/app.py) and its
schema library (src/server/models.py) against the natural-language
specification.  The Python code is shallowly embedded: pydantic models become
smart constructors returning `Except`, FastAPI exception handlers become pure
functions from an error value to a response, and routes become pure functions
of the controller's dispatch result.  Python floats are modelled as rationals,
Python ints as integers.
-/

namespace GroundStation

/-- A JSON value, the shape of every HTTP request and response body. -/
inductive Json where
  | str : String → Json
  | int : Int → Json
  | num : ℚ → Json
  | bool : Bool → Json
  | arr : List Json → Json
  | obj : List (String × Json) → Json
  | null : Json

/-- The keys of a JSON object (empty for non-objects). -/
def Json.keys : Json → List String
  | .obj kvs => kvs.map Prod.fst
  | _ => []

/-- Field lookup in a JSON object. -/
def Json.lookup (j : Json) (k : String) : Option Json :=
  match j with
  | .obj kvs => (kvs.find? (fun kv => kv.fst = k)).map Prod.snd
  | _ => none

/-- The failure taxonomy consumed by the gateway's exception handlers
(`errors.py` kinds plus FastAPI's `RequestValidationError` and the catch-all
`Exception`).  Each failure carries its message (`str(e)`) and its traceback
lines (`traceback.format_tb(e.__traceback__)`). -/
inductive PyError where
  | invalidRequestError (msg : String) (tb : List String)
  | invalidStateError (msg : String) (tb : List String)
  | requestValidationError (msg : String) (tb : List String)
  | serviceUnavailableError (msg : String) (tb : List String)
  | generalError (msg : String) (tb : List String)
  | otherException (typeName : String) (msg : String) (tb : List String)
deriving Repr, DecidableEq

/-- `type(e).__name__` of a failure. -/
def PyError.typeName : PyError → String
  | .invalidRequestError .. => "InvalidRequestError"
  | .invalidStateError .. => "InvalidStateError"
  | .requestValidationError .. => "RequestValidationError"
  | .serviceUnavailableError .. => "ServiceUnavailableError"
  | .generalError .. => "GeneralError"
  | .otherException n _ _ => n

/-- `str(e)`: the failure's message text. -/
def PyError.message : PyError → String
  | .invalidRequestError m _ => m
  | .invalidStateError m _ => m
  | .requestValidationError m _ => m
  | .serviceUnavailableError m _ => m
  | .generalError m _ => m
  | .otherException _ m _ => m

/-- `traceback.format_tb(e.__traceback__)`: the failure's stack-trace lines. -/
def PyError.tracebackLines : PyError → List String
  | .invalidRequestError _ t => t
  | .invalidStateError _ t => t
  | .requestValidationError _ t => t
  | .serviceUnavailableError _ t => t
  | .generalError _ t => t
  | .otherException _ _ t => t

/-- An HTTP response: status code and JSON body. -/
structure Response where
  status : Nat
  body : Json

/-- `handle_400` in app.py: renders an `InvalidRequestError` as HTTP 400. -/
def handle_400 (e : PyError) : Response :=
  { status := 400
    body := .obj
      [("title", .str "Invalid Request"),
       ("message", .str e.message),
       ("exception", .str e.typeName),
       ("traceback", .arr (e.tracebackLines.map .str))] }

/-- `handle_409` in app.py: renders an `InvalidStateError` as HTTP 409. -/
def handle_409 (e : PyError) : Response :=
  { status := 409
    body := .obj
      [("title", .str "Invalid State"),
       ("message", .str e.message),
       ("exception", .str e.typeName),
       ("traceback", .arr (e.tracebackLines.map .str))] }

/-- `handle_422` in app.py: renders a `RequestValidationError` as HTTP 422. -/
def handle_422 (e : PyError) : Response :=
  { status := 422
    body := .obj
      [("title", .str "Request Validation Failed"),
       ("message", .str e.message),
       ("exception", .str e.typeName),
       ("traceback", .arr (e.tracebackLines.map .str))] }

/-- `handle_503` in app.py: renders a `ServiceUnavailableError` as HTTP 503. -/
def handle_503 (e : PyError) : Response :=
  { status := 503
    body := .obj
      [("title", .str "Service Unavailable"),
       ("message", .str e.message),
       ("exception", .str e.typeName),
       ("traceback", .arr (e.tracebackLines.map .str))] }

/-- `handle_500` in app.py: renders a `GeneralError` or any other uncaught
exception as HTTP 500 with title "Server Error". -/
def handle_500 (e : PyError) : Response :=
  { status := 500
    body := .obj
      [("title", .str "Server Error"),
       ("message", .str e.message),
       ("exception", .str e.typeName),
       ("traceback", .arr (e.tracebackLines.map .str))] }

/-- FastAPI's exception-handler dispatch as registered in app.py: the most
specific registered handler for the raised failure's type is selected;
`GeneralError` and the bare `Exception` catch-all both route to `handle_500`. -/
def handleException : PyError → Response
  | e@(.invalidRequestError ..) => handle_400 e
  | e@(.invalidStateError ..) => handle_409 e
  | e@(.requestValidationError ..) => handle_422 e
  | e@(.serviceUnavailableError ..) => handle_503 e
  | e@(.generalError ..) => handle_500 e
  | e@(.otherException ..) => handle_500 e

/-! ### Schema library (models.py)

Each pydantic model becomes a record plus a smart constructor that checks
exactly the `Field` constraints declared in models.py and fails with a
validation error otherwise. -/

/-- Model of models.py `LatLonDict`: latitude and longitude in degrees,
each constrained by `gt=-180, le=180`. -/
structure LatLonDict where
  latitude : ℚ
  longitude : ℚ
deriving Repr, DecidableEq

/-- Pydantic construction of a `LatLonDict`: both fields must satisfy
`gt=-180, le=180`, otherwise a validation error is raised. -/
def mkLatLonDict (latitude longitude : ℚ) : Except String LatLonDict :=
  if (-180 < latitude ∧ latitude ≤ 180) ∧ (-180 < longitude ∧ longitude ≤ 180) then
    .ok ⟨latitude, longitude⟩
  else
    .error "ValidationError"

/-- Model of models.py `LatLonAltDict`, extending `LatLonDict` with an integer
altitude field that carries no range constraint. -/
structure LatLonAltDict extends LatLonDict where
  altitude : ℤ
deriving Repr, DecidableEq

/-- Pydantic construction of a `LatLonAltDict`: the inherited latitude and
longitude constraints apply; the altitude field is unconstrained. -/
def mkLatLonAltDict (latitude longitude : ℚ) (altitude : ℤ) :
    Except String LatLonAltDict :=
  match mkLatLonDict latitude longitude with
  | .ok p => .ok ⟨p, altitude⟩
  | .error e => .error e

/-- Model of models.py `TelemetryDict`, extending `LatLonAltDict` with a
heading field constrained by `ge=0, lt=360`. -/
structure TelemetryDict extends LatLonAltDict where
  heading : ℤ
deriving Repr, DecidableEq

/-- Pydantic construction of a `TelemetryDict`. -/
def mkTelemetryDict (latitude longitude : ℚ) (altitude heading : ℤ) :
    Except String TelemetryDict :=
  match mkLatLonAltDict latitude longitude altitude with
  | .ok p => if 0 ≤ heading ∧ heading < 360 then .ok ⟨p, heading⟩
             else .error "ValidationError"
  | .error e => .error e

/-- Model of models.py `FlyZoneDict`: minimum and maximum altitude, each
constrained only by `ge=0`, plus boundary points; no constraint relates
altitudeMin to altitudeMax. -/
structure FlyZoneDict where
  altitudeMin : ℤ
  altitudeMax : ℤ
  boundaryPoints : List LatLonDict
deriving Repr, DecidableEq

/-- Pydantic construction of a `FlyZoneDict`: altitudeMin and altitudeMax must
each be non-negative; nothing else is checked. -/
def mkFlyZoneDict (altitudeMin altitudeMax : ℤ) (boundaryPoints : List LatLonDict) :
    Except String FlyZoneDict :=
  if 0 ≤ altitudeMin ∧ 0 ≤ altitudeMax then
    .ok ⟨altitudeMin, altitudeMax, boundaryPoints⟩
  else
    .error "ValidationError"

/-- Model of models.py `OrientationDict`: yaw `ge=0, lt=360`; roll and pitch
each `gt=-180, le=180`. -/
structure OrientationDict where
  yaw : ℤ
  roll : ℤ
  pitch : ℤ
deriving Repr, DecidableEq

/-- Pydantic construction of an `OrientationDict`. -/
def mkOrientationDict (yaw roll pitch : ℤ) : Except String OrientationDict :=
  if (0 ≤ yaw ∧ yaw < 360) ∧ (-180 < roll ∧ roll ≤ 180) ∧ (-180 < pitch ∧ pitch ≤ 180) then
    .ok ⟨yaw, roll, pitch⟩
  else
    .error "ValidationError"

/-- Per-field constraint on `QuickDict.altitude` from models.py: `ge=0`. -/
def QuickDict.altitudeOk (altitude : ℚ) : Bool := 0 ≤ altitude

/-- Per-field constraint on `QuickDict.voltage` from models.py: `ge=0, lt=20`. -/
def QuickDict.voltageOk (voltage : ℚ) : Bool := 0 ≤ voltage && voltage < 20

/-- Per-field constraint on `QuickDict.throttle` from models.py: `ge=0, le=100`. -/
def QuickDict.throttleOk (throttle : ℤ) : Bool := 0 ≤ throttle && throttle ≤ 100

/-- Model of models.py `QuickDict`: the live vehicle snapshot. -/
structure QuickDict where
  altitude : ℚ
  orientation : OrientationDict
  ground_speed : ℚ
  air_speed : ℚ
  dist_to_wp : ℚ
  voltage : ℚ
  throttle : ℤ
  lat : ℚ
  lon : ℚ
deriving Repr, DecidableEq

/-- Pydantic construction of a `QuickDict`: altitude, ground_speed, air_speed
and dist_to_wp must be `ge=0`; voltage `ge=0, lt=20`; throttle `ge=0, le=100`;
lat and lon `gt=-180, le=180`; orientation is an already-validated nested
model. -/
def mkQuickDict (altitude : ℚ) (orientation : OrientationDict)
    (ground_speed air_speed dist_to_wp voltage : ℚ) (throttle : ℤ)
    (lat lon : ℚ) : Except String QuickDict :=
  if QuickDict.altitudeOk altitude ∧ 0 ≤ ground_speed ∧ 0 ≤ air_speed ∧
      0 ≤ dist_to_wp ∧ QuickDict.voltageOk voltage ∧ QuickDict.throttleOk throttle ∧
      (-180 < lat ∧ lat ≤ 180) ∧ (-180 < lon ∧ lon ≤ 180) then
    .ok ⟨altitude, orientation, ground_speed, air_speed, dist_to_wp, voltage,
         throttle, lat, lon⟩
  else
    .error "ValidationError"

/-! ### Gateway routes (app.py)

Each enabled route calls the shared Controller's single dispatch entry point
`gs.call(command, *args)` with a fixed command name and no further arguments,
and returns the Controller's value unchanged under the decorator-declared
success status code; a raised failure is intercepted by the registered
exception handlers. -/

/-- The Controller's single dispatch entry point: a command name and
positional arguments, returning a plain data value or raising a failure. -/
def GSCall := String → List Json → Except PyError Json

/-- A route's fixed behaviour: the command name and positional arguments it
passes to the Controller's dispatch, and its decorator-declared success
status code. -/
structure Route where
  command : String
  args : List Json
  success_status : Nat

/-- Route `POST /interop/login` in app.py: body `return gs.call("i_login")`,
decorator `status_code=201`. -/
def interop_login : Route := { command := "i_login", args := [], success_status := 201 }

/-- Route `GET /interop/mission` in app.py: body `return gs.call("i_mission")`,
decorator `status_code=200`. -/
def interop_mission : Route := { command := "i_mission", args := [], success_status := 200 }

/-- Route `GET /interop/telemetry` in app.py: body
`return gs.call("i_telemetry")`, decorator `status_code=200`. -/
def interop_telemetry : Route := { command := "i_telemetry", args := [], success_status := 200 }

/-- Route `GET /uav/quick` in app.py: body `return gs.call("m_quick")`,
decorator `status_code=200`. -/
def quick : Route := { command := "m_quick", args := [], success_status := 200 }

/-- Executing a route against the shared Controller: on success the
Controller's value is returned unchanged as the body under the route's
success status; on failure the registered exception handler renders the
response. -/
def runRoute (r : Route) (gs : GSCall) : Response :=
  match gs r.command r.args with
  | .ok v => { status := r.success_status, body := v }
  | .error e => handleException e

/-! ### Cross-origin policy and logging bootstrap (app.py) -/

/-- Configuration of FastAPI's `CORSMiddleware` as installed in app.py. -/
structure CORSConfig where
  allow_origins : List String
  allow_credentials : Bool
  allow_methods : List String
  allow_headers : List String
deriving Repr, DecidableEq

/-- The `origins` list in app.py. -/
def origins : List String := ["http://localhost:3000"]

/-- The middleware installation in app.py:
`allow_origins=origins, allow_credentials=True, allow_methods=["*"],
allow_headers=["*"]`. -/
def corsMiddleware : CORSConfig :=
  { allow_origins := origins
    allow_credentials := true
    allow_methods := ["*"]
    allow_headers := ["*"] }

/-- Whether the CORS policy accepts a request from the given origin: the
origin must be a member of the configured allow-list (the list holds no
wildcard entry, so membership is exact). -/
def CORSConfig.originAllowed (c : CORSConfig) (origin : String) : Bool :=
  c.allow_origins.contains origin

/-- Python logging severities, ordered by their numeric values. -/
inductive LogLevel where
  | DEBUG
  | INFO
  | WARNING
  | ERROR
  | CRITICAL
deriving Repr, DecidableEq

/-- Numeric value of a Python logging severity. -/
def LogLevel.toNat : LogLevel → Nat
  | .DEBUG => 10
  | .INFO => 20
  | .WARNING => 30
  | .ERROR => 40
  | .CRITICAL => 50

/-- Where a logging handler writes: the console stream, or a file opened with
a given Python file mode. -/
inductive Sink where
  | console : Sink
  | file (filename : String) (mode : String) : Sink
deriving Repr, DecidableEq

/-- Python's file mode string that truncates the file on open. -/
def truncatingMode : String := "w"

/-- A logging handler: its sink and its minimum severity. -/
structure LogHandler where
  sink : Sink
  level : LogLevel
deriving Repr, DecidableEq

/-- A handler accepts a record whose severity is at or above its level. -/
def LogHandler.accepts (h : LogHandler) (l : LogLevel) : Bool :=
  h.level.toNat ≤ l.toNat

/-- The `console_handler` in app.py: `StreamHandler` at level WARNING. -/
def console_handler : LogHandler := { sink := .console, level := .WARNING }

/-- The `file_handler` in app.py: `FileHandler("log.txt", mode="w")` at
level INFO. -/
def file_handler : LogHandler := { sink := .file "log.txt" "w", level := .INFO }

/-- The `debug_file_handler` in app.py:
`FileHandler("debug_log.txt", mode="w")` at level DEBUG. -/
def debug_file_handler : LogHandler :=
  { sink := .file "debug_log.txt" "w", level := .DEBUG }

/-- The three `logger.addHandler(...)` calls in app.py, in order. -/
def logger_handlers : List LogHandler :=
  [console_handler, file_handler, debug_file_handler]

/-- One line emitted at startup: either a `print(...)` to the console or a
logger record at a severity. -/
inductive StartupEmission where
  | printLine (text : String) : StartupEmission
  | logRecord (level : LogLevel) (text : String) : StartupEmission
deriving Repr, DecidableEq

/-- The two lines emitted immediately after the logging setup in app.py:
`print("LOGGING STARTED")` then `logger.info("LOGGING STARTED")`. -/
def startup_emissions : List StartupEmission :=
  [.printLine "LOGGING STARTED", .logRecord .INFO "LOGGING STARTED"]

/-- Whether a pydantic construction succeeded (no validation error raised). -/
def constructionSucceeds {α : Type} : Except String α → Bool
  | .ok _ => true
  | .error _ => false

/-- Status code that the specification's failure-taxonomy table assigns to
each failure kind, stated from the spec's words for comparison with the
code's handlers: Invalid Request 400, Invalid State 409, Request Validation
Failed 422, Service Unavailable 503, everything else 500. -/
def specStatusOfFailure : PyError → Nat
  | .invalidRequestError .. => 400
  | .invalidStateError .. => 409
  | .requestValidationError .. => 422
  | .serviceUnavailableError .. => 503
  | .generalError .. => 500
  | .otherException .. => 500

/-- Human title each handler in app.py actually writes into the envelope. -/
def codeTitle : PyError → String
  | .invalidRequestError .. => "Invalid Request"
  | .invalidStateError .. => "Invalid State"
  | .requestValidationError .. => "Request Validation Failed"
  | .serviceUnavailableError .. => "Service Unavailable"
  | .generalError .. => "Server Error"
  | .otherException .. => "Server Error"

end GroundStation

namespace GroundStation

/-- C1: every intercepted failure is mapped to the HTTP status its kind
prescribes (Invalid Request 400, Invalid State 409, Request Validation
Failed 422, Service Unavailable 503, GeneralError and any other exception
500), and in every case the response body is a JSON object with exactly the
fields title, message, exception and traceback. -/
theorem failure_status_mapping_and_envelope_fields (e : PyError) :
    (handleException e).status = specStatusOfFailure e ∧
    (handleException e).body.keys = ["title", "message", "exception", "traceback"] := by
  cases e <;> exact ⟨rfl, rfl⟩

/-- C2 counterexample: the claim says the 500 envelope's title is the
taxonomy-table label "General / unclassified" and the 422 title is the
table's "Request validation failed"; the code writes "Server Error" and
"Request Validation Failed" respectively. -/
theorem envelope_title_differs_from_table_label :
    (handleException (.generalError "boom" [])).body.lookup "title" =
      some (Json.str "Server Error") ∧
    "Server Error" ≠ "General / unclassified" ∧
    (handleException (.requestValidationError "bad shape" [])).body.lookup "title" =
      some (Json.str "Request Validation Failed") ∧
    "Request Validation Failed" ≠ "Request validation failed" := by
  exact ⟨rfl, by decide, rfl, by decide⟩

/-- C2 amended: for every intercepted failure the envelope's title is the
handler's human label — Invalid Request, Invalid State, Request Validation
Failed, Service Unavailable, and Server Error for the 500 case — its message
equals the failure's message text, its exception field equals the
failure-kind's identifying name, and its traceback field is the failure's
stack-trace lines. -/
theorem envelope_contents (e : PyError) :
    (handleException e).body.lookup "title" = some (Json.str (codeTitle e)) ∧
    (handleException e).body.lookup "message" = some (Json.str e.message) ∧
    (handleException e).body.lookup "exception" = some (Json.str e.typeName) ∧
    (handleException e).body.lookup "traceback" =
      some (Json.arr (e.tracebackLines.map Json.str)) := by
  cases e <;> exact ⟨rfl, rfl, rfl, rfl⟩

/-- C3: when the Controller's i_login command succeeds with a payload
matching the GeneralOut shape, POST /interop/login responds 201 with body
equal to the result wrapper around the controller payload, and the route
passes exactly the fixed command name i_login with no further arguments to
the Controller's dispatch. -/
theorem interop_login_contract (gs : GSCall) (payload : Json)
    (h : gs "i_login" [] = .ok (Json.obj [("result", payload)])) :
    runRoute interop_login gs =
      { status := 201, body := Json.obj [("result", payload)] } ∧
    interop_login.command = "i_login" ∧ interop_login.args = [] := by
  refine ⟨?_, rfl, rfl⟩
  simp only [runRoute, interop_login, h]

/-- A stub Controller whose i_login command succeeds with an empty result. -/
def loginStubGS : GSCall := fun command _ =>
  if command = "i_login" then .ok (Json.obj [("result", Json.obj [])])
  else .error (.generalError "unexpected command" [])

/-- Witness for C3 at the stub Controller. -/
theorem interop_login_contract_witness :
    runRoute interop_login loginStubGS =
      { status := 201, body := Json.obj [("result", Json.obj [])] } ∧
    interop_login.command = "i_login" ∧ interop_login.args = [] :=
  interop_login_contract loginStubGS (Json.obj []) rfl

/-- C9: GET /interop/telemetry applies no transformation of its own — two
invocations whose i_telemetry dispatch results are equal produce identical
responses, so issuing the request twice with no intervening state change
yields two structurally identical envelopes. -/
theorem interop_telemetry_idempotent (gs gs' : GSCall)
    (h : gs "i_telemetry" [] = gs' "i_telemetry" []) :
    runRoute interop_telemetry gs = runRoute interop_telemetry gs' := by
  simp only [runRoute, interop_telemetry, h]

/-- A stub Controller whose i_telemetry command always returns one fixed
telemetry result. -/
def telemetryStubGS : GSCall := fun _ _ =>
  .ok (Json.obj [("result",
    Json.obj [("latitude", Json.num 38), ("longitude", Json.num (-77)),
              ("altitude", Json.int 150), ("heading", Json.int 270)])])

/-- Witness for C9: two calls against the stub Controller agree. -/
theorem interop_telemetry_idempotent_witness :
    runRoute interop_telemetry telemetryStubGS =
      runRoute interop_telemetry telemetryStubGS :=
  interop_telemetry_idempotent telemetryStubGS telemetryStubGS rfl

/-- C4: a GeographicPoint construction succeeds exactly when latitude and
longitude each lie in the open-closed interval (-180, 180]; in particular it
fails at -180 in either coordinate, fails above 180, and succeeds at exactly
180. -/
theorem latlon_validation (lat lon : ℚ) :
    (constructionSucceeds (mkLatLonDict lat lon) = true ↔
      ((-180 < lat ∧ lat ≤ 180) ∧ (-180 < lon ∧ lon ≤ 180))) ∧
    constructionSucceeds (mkLatLonDict (-180) 0) = false ∧
    constructionSucceeds (mkLatLonDict 0 (-180)) = false ∧
    constructionSucceeds (mkLatLonDict 181 0) = false ∧
    constructionSucceeds (mkLatLonDict 0 181) = false ∧
    constructionSucceeds (mkLatLonDict 180 180) = true := by
  refine ⟨?_, by decide, by decide, by decide, by decide, by decide⟩
  simp only [mkLatLonDict]
  split_ifs with h
  · simpa [constructionSucceeds] using h
  · simpa [constructionSucceeds] using h

/-- C5: QuickStatus accepts the voltage field exactly when 0 ≤ v < 20 and
the throttle field exactly when 0 ≤ t ≤ 100; with every other field held at
a valid value the construction succeeds exactly when both checks pass;
throttle 0 and 100 are accepted and voltage 20 is rejected. -/
theorem quick_voltage_throttle (voltage : ℚ) (throttle : ℤ) :
    (QuickDict.voltageOk voltage = true ↔ (0 ≤ voltage ∧ voltage < 20)) ∧
    (QuickDict.throttleOk throttle = true ↔ (0 ≤ throttle ∧ throttle ≤ 100)) ∧
    (constructionSucceeds
        (mkQuickDict 150 ⟨270, 24, 3⟩ 56 54 152 voltage throttle 38 (-77)) = true ↔
      (QuickDict.voltageOk voltage = true ∧ QuickDict.throttleOk throttle = true)) ∧
    QuickDict.throttleOk 0 = true ∧
    QuickDict.throttleOk 100 = true ∧
    QuickDict.voltageOk 20 = false ∧
    constructionSucceeds (mkQuickDict 150 ⟨270, 24, 3⟩ 56 54 152 20 65 38 (-77)) = false := by
  refine ⟨?_, ?_, ?_, by decide, by decide, by decide, by decide⟩
  · simp [QuickDict.voltageOk]
  · simp [QuickDict.throttleOk]
  · simp only [mkQuickDict]
    split_ifs with h
    · obtain ⟨-, -, -, -, hv, ht, -, -⟩ := h
      simp [constructionSucceeds, hv, ht]
    · simp only [constructionSucceeds, Bool.false_eq_true, false_iff, not_and]
      intro hv ht
      exact h ⟨by decide, by norm_num, by norm_num, by norm_num, hv, ht,
        by norm_num, by norm_num⟩

/-- C6: a FlightZone construction requires altitudeMin and altitudeMax each
to be non-negative, and enforces no relation between them: a pair with
altitudeMin strictly greater than altitudeMax is still accepted. -/
theorem flyzone_validation (amin amax : ℤ) (pts : List LatLonDict) :
    (constructionSucceeds (mkFlyZoneDict amin amax pts) = true ↔
      (0 ≤ amin ∧ 0 ≤ amax)) ∧
    constructionSucceeds (mkFlyZoneDict 750 100 []) = true ∧
    (100 : ℤ) < 750 ∧
    constructionSucceeds (mkFlyZoneDict (-1) 100 []) = false ∧
    constructionSucceeds (mkFlyZoneDict 100 (-1) []) = false := by
  refine ⟨?_, by decide, by decide, by decide, by decide⟩
  simp only [mkFlyZoneDict]
  split_ifs with h
  · simpa [constructionSucceeds] using h
  · simpa [constructionSucceeds] using h

/-- C10: the altitude field of GeographicPointWithAltitude carries no range
constraint — construction succeeds exactly when the latitude/longitude
checks do, for every integer altitude including negative ones, and the same
holds one level up for TelemetryReading — unlike the QuickStatus altitude,
which requires altitude ≥ 0. -/
theorem latlonalt_altitude_unconstrained (lat lon : ℚ) (alt : ℤ) :
    constructionSucceeds (mkLatLonAltDict lat lon alt) =
      constructionSucceeds (mkLatLonDict lat lon) ∧
    constructionSucceeds (mkLatLonAltDict 38 (-77) (-1000)) = true ∧
    constructionSucceeds (mkTelemetryDict 38 (-77) (-1000) 270) = true ∧
    QuickDict.altitudeOk (-1000) = false ∧
    QuickDict.altitudeOk 150 = true := by
  refine ⟨?_, by decide, by decide, by decide, by decide⟩
  simp only [mkLatLonAltDict]
  cases hm : mkLatLonDict lat lon <;> simp [constructionSucceeds]

/-- C7: the cross-origin policy allows exactly the origin
http://localhost:3000 — any other origin such as http://evil.example is
rejected — while allowing all methods, all headers, and credentials. -/
theorem cors_policy :
    corsMiddleware.allow_origins = ["http://localhost:3000"] ∧
    corsMiddleware.originAllowed "http://localhost:3000" = true ∧
    corsMiddleware.originAllowed "http://evil.example" = false ∧
    corsMiddleware.allow_methods = ["*"] ∧
    corsMiddleware.allow_headers = ["*"] ∧
    corsMiddleware.allow_credentials = true ∧
    (∀ o : String, corsMiddleware.originAllowed o = true ↔ o = "http://localhost:3000") := by
  refine ⟨rfl, by decide, by decide, rfl, rfl, rfl, ?_⟩
  intro o
  simp [CORSConfig.originAllowed, corsMiddleware, origins]

/-- C8: the logger is configured with exactly three sinks — console at
WARNING and above, log.txt at INFO and above in truncating mode, and
debug_log.txt at DEBUG and above in truncating mode — and immediately after
setup one console line and one INFO-level "LOGGING STARTED" record are
emitted. -/
theorem logging_setup :
    logger_handlers = [console_handler, file_handler, debug_file_handler] ∧
    logger_handlers.length = 3 ∧
    console_handler = { sink := .console, level := .WARNING } ∧
    file_handler = { sink := .file "log.txt" truncatingMode, level := .INFO } ∧
    debug_file_handler = { sink := .file "debug_log.txt" truncatingMode, level := .DEBUG } ∧
    console_handler.accepts .WARNING = true ∧
    console_handler.accepts .INFO = false ∧
    file_handler.accepts .INFO = true ∧
    file_handler.accepts .DEBUG = false ∧
    debug_file_handler.accepts .DEBUG = true ∧
    startup_emissions =
      [.printLine "LOGGING STARTED", .logRecord .INFO "LOGGING STARTED"] := by
  exact ⟨rfl, rfl, rfl, rfl, rfl, rfl, rfl, rfl, rfl, rfl, rfl⟩

end GroundStation
